import Mathlib

/-!
Verification of the go-migrator repository: a shallow embedding of its
diff engine, DDL generator, annotation parsing and model registration,
with theorems settling the specification's claims.

The repository contains two near-duplicate code paths: the `Migrator`
methods (files `sql_helpers.go`, `migrator.go`, `model_comparison.go`)
and free functions in `main.go`.  Both are embedded; `Migrator.*`
names follow the method path, `main*` names follow `main.go`.

Go strings are modelled as Lean `String`; the Go standard-library
string operations used by the source (`strings.Split` with a one-char
separator, `strings.Contains`, `strings.HasPrefix`, `strings.Fields`,
`strings.Join`, `strings.EqualFold`) are given explicit executable
definitions over `List Char` below.  A Go slice-index panic
(`parts[1]` on a short slice) is modelled by `Option`: `none` means
the Go code panics.
-/

namespace GoMigrator

/-- Boolean test that `p` is a prefix of `l` (Go `strings.HasPrefix`). -/
def chStarts : List Char → List Char → Bool
  | [], _ => true
  | _ :: _, [] => false
  | a :: as, b :: bs => a = b && chStarts as bs

/-- Boolean test that `sub` occurs inside `l` (Go `strings.Contains`). -/
def chHas (sub : List Char) : List Char → Bool
  | [] => chStarts sub []
  | c :: cs => chStarts sub (c :: cs) || chHas sub cs

/-- Split `l` at every occurrence of the separator character, keeping
empty segments; on `[]` it returns `[[]]`, matching Go
`strings.Split("", sep) = [""]`. -/
def chSplit (sep : Char) : List Char → List (List Char)
  | [] => [[]]
  | c :: cs =>
    let r := chSplit sep cs
    if c = sep then [] :: r
    else
      match r with
      | [] => [[c]]
      | w :: ws => (c :: w) :: ws

/-- Word-splitting loop with the current in-progress word as
accumulator: whitespace closes the current word (if any), other
characters extend it. -/
def chWordsAux (cur : List Char) : List Char → List (List Char)
  | [] => if cur.isEmpty then [] else [cur]
  | c :: cs =>
    if c.isWhitespace then
      if cur.isEmpty then chWordsAux [] cs
      else cur :: chWordsAux [] cs
    else chWordsAux (cur ++ [c]) cs

/-- Split into maximal whitespace-free words (Go `strings.Fields`). -/
def chWords (l : List Char) : List (List Char) := chWordsAux [] l

/-- Join with a separator (Go `strings.Join`). -/
def sepJoin : List String → String → String
  | [], _ => ""
  | [s], _ => s
  | s :: t :: rest, sep => s ++ sep ++ sepJoin (t :: rest) sep

/-- Go `strings.Contains`. -/
def goContains (s sub : String) : Bool := chHas sub.data s.data

/-- Go `strings.HasPrefix`. -/
def goStartsWith (s pre : String) : Bool := chStarts pre.data s.data

/-- Go `strings.Split(s, ":")`. -/
def goSplitColon (s : String) : List String := (chSplit ':' s.data).map String.mk

/-- Go `strings.Split(s, ";")`. -/
def goSplitSemi (s : String) : List String := (chSplit ';' s.data).map String.mk

/-- Go `strings.Fields`. -/
def goFieldsWords (s : String) : List String := (chWords s.data).map String.mk

/-- Go `strings.EqualFold`, restricted to simple per-character lowering
(adequate for the ASCII SQL type keywords the source compares). -/
def goEqualFold (a b : String) : Bool :=
  a.data.map Char.toLower = b.data.map Char.toLower

/-- The semantic type of a Go struct field, as seen by `reflect.Kind`
plus the two struct identity checks the source performs
(`goType == reflect.TypeOf(time.Time{})` and the struct's `Name()`). -/
inductive GoType where
  | intK : GoType
  | uintK : GoType
  | stringK : GoType
  | boolK : GoType
  | floatK : GoType
  | structK (name : String) (isTimeTime : Bool) (isGormModel : Bool) : GoType
  | otherK : GoType
  deriving DecidableEq

/-- One Go struct field: its Go name, the column name the external
naming strategy assigns to it, its type and its raw `gorm` tag. -/
structure GoField where
  name : String
  columnName : String
  type : GoType
  gormTag : String
  deriving DecidableEq

/-- A registered model: its Go type name, the table name the external
naming strategy assigns to it, and its fields in declaration order. -/
structure GoModel where
  name : String
  tableName : String
  fields : List GoField
  deriving DecidableEq

/-- The check `field.Name == "Model" && field.Type == reflect.TypeOf(gorm.Model{})`
used to skip / expand the embedded `gorm.Model` field. -/
def isGormModelField (f : GoField) : Bool :=
  f.name = "Model" &&
    (match f.type with
     | .structK _ _ g => g
     | _ => false)

/-- One live column observed in `information_schema.columns`. -/
structure LiveColumn where
  name : String
  dataType : String
  deriving DecidableEq

/-- Introspector: `SELECT EXISTS (... information_schema.columns ...)`. -/
def columnExistsB (table : List LiveColumn) (c : String) : Bool :=
  table.any (fun lc => lc.name = c)

/-- Introspector: `SELECT data_type FROM information_schema.columns ...`
for a column known to exist (first match wins). -/
def columnTypeLookup (table : List LiveColumn) (c : String) : String :=
  match table.find? (fun lc => lc.name = c) with
  | some lc => lc.dataType
  | none => ""

/-- The `Migrator.getPostgresType` mapping of `sql_helpers.go`
(lines 14-32): signed and unsigned ints to BIGINT, string to TEXT,
bool to BOOLEAN, float to FLOAT, `time.Time` to TIMESTAMP, default TEXT. -/
def Migrator.getPostgresType : GoType → String
  | .intK => "BIGINT"
  | .uintK => "BIGINT"
  | .stringK => "TEXT"
  | .boolK => "BOOLEAN"
  | .floatK => "FLOAT"
  | .structK _ isTimeTime _ => if isTimeTime then "TIMESTAMP" else "TEXT"
  | .otherK => "TEXT"

/-- The free `getPostgresType` of `main.go` (lines 270-286): string to
VARCHAR, signed ints to BIGINT, float to DOUBLE PRECISION, bool to
BOOLEAN, a struct whose `Name()` is "Time" to TIMESTAMP; everything
else — including every unsigned int, for which `main.go` has no case —
falls through to TEXT. -/
def mainGetPostgresType : GoType → String
  | .stringK => "VARCHAR"
  | .intK => "BIGINT"
  | .floatK => "DOUBLE PRECISION"
  | .boolK => "BOOLEAN"
  | .structK name _ _ => if name = "Time" then "TIMESTAMP" else "TEXT"
  | .uintK => "TEXT"
  | .otherK => "TEXT"

/-- `Migrator.getDefault` (`sql_helpers.go` 72-78): if the tag contains
`default:`, split the whole tag on `:` and return element 1 (which
exists, since a colon is present), else the empty string. -/
def Migrator.getDefault (gormTag : String) : String :=
  if goContains gormTag "default:" then ((goSplitColon gormTag)[1]?).getD ""
  else ""

/-- `Migrator.getComment` (`sql_helpers.go` 64-70). -/
def Migrator.getComment (gormTag : String) : String :=
  if goContains gormTag "comment:" then ((goSplitColon gormTag)[1]?).getD ""
  else ""

/-- Scan of the `;`-separated tag parts inside `Migrator.getForeignKey`:
return on the first part starting with `foreignKey:`, taking the text
after the first colon of that part as the referenced table, and always
emitting `(id)` as the referenced column. -/
def findFKPart (columnName : String) : List String → String
  | [] => ""
  | part :: rest =>
    if goStartsWith part "foreignKey:" then
      "FOREIGN KEY (" ++ columnName ++ ") REFERENCES " ++
        (((goSplitColon part)[1]?).getD "") ++ "(id)"
    else findFKPart columnName rest

/-- `Migrator.getForeignKey` (`sql_helpers.go` 49-62). -/
def Migrator.getForeignKey (gormTag columnName : String) : String :=
  if goContains gormTag "foreignKey" then
    findFKPart columnName (goSplitSemi gormTag)
  else ""

/-- `Migrator.buildColumnDefinition` (`sql_helpers.go` 34-47): name,
mapped type, optional NOT NULL, optional DEFAULT (no UNIQUE handling in
this code path). -/
def Migrator.buildColumnDefinition (columnName : String) (goType : GoType)
    (gormTag : String) : String :=
  let columnDef := columnName ++ " " ++ Migrator.getPostgresType goType
  let columnDef :=
    if goContains gormTag "not null" then columnDef ++ " NOT NULL" else columnDef
  let defaultValue := Migrator.getDefault gormTag
  if defaultValue ≠ "" then columnDef ++ " DEFAULT " ++ defaultValue else columnDef

/-- `main.go` `getDefault` (lines 321-324): unconditionally indexes
element 1 of the colon-split tag; `none` models the Go index-out-of-range
panic when the tag has no colon. -/
def mainGetDefault (gormTag : String) : Option String :=
  (goSplitColon gormTag)[1]?

/-- `main.go` `getComment` (lines 313-319): guarded only by
`Contains(tag, "comment")` (no colon required), then indexes element 1;
`none` models the panic. -/
def mainGetComment (gormTag : String) : Option String :=
  if goContains gormTag "comment" then (goSplitColon gormTag)[1]?
  else some ""

/-- `main.go` `getForeignKey` (lines 305-311): guarded only by
`Contains(tag, "foreignKey")`, then indexes element 1 of the colon-split
of the whole tag; `none` models the panic. -/
def mainGetForeignKey (gormTag columnName : String) : Option String :=
  if goContains gormTag "foreignKey" then
    ((goSplitColon gormTag)[1]?).map
      (fun p => "FOREIGN KEY (" ++ columnName ++ ") REFERENCES " ++ p)
  else some ""

/-- `main.go` `buildColumnDefinition` (lines 288-303): NOT NULL, UNIQUE,
and DEFAULT via `mainGetDefault` when the tag contains `default`
(colon not required, so a bare `default` token panics: `none`). -/
def mainBuildColumnDefinition (columnName : String) (goType : GoType)
    (gormTag : String) : Option String :=
  let columnDef := columnName ++ " " ++ mainGetPostgresType goType
  let columnDef :=
    if goContains gormTag "not null" then columnDef ++ " NOT NULL" else columnDef
  let columnDef :=
    if goContains gormTag "unique" then columnDef ++ " UNIQUE" else columnDef
  if goContains gormTag "default" then
    (mainGetDefault gormTag).map (fun v => columnDef ++ " DEFAULT " ++ v)
  else some columnDef

/-- The diff loop of `compareModelToTable`
(`model_comparison.go` 14-54, identically `main.go` 126-164),
parameterised by the type mapper used (`Migrator.getPostgresType` in
the method path, `main.go`'s `getPostgresType` in the free-function
path).  For each non-`gorm.Model` field in declaration order: if the
column is absent, emit `ADD COLUMN <name> <type>`; if present with a
reported type differing case-insensitively, emit
`ALTER COLUMN <name> TYPE <type>`; else emit nothing. -/
def compareFieldsWith (typer : GoType → String) (table : List LiveColumn) :
    List GoField → List String
  | [] => []
  | f :: fs =>
    if isGormModelField f then compareFieldsWith typer table fs
    else if columnExistsB table f.columnName = false then
      ("ADD COLUMN " ++ f.columnName ++ " " ++ typer f.type) ::
        compareFieldsWith typer table fs
    else if goEqualFold (columnTypeLookup table f.columnName) (typer f.type) = false then
      ("ALTER COLUMN " ++ f.columnName ++ " TYPE " ++ typer f.type) ::
        compareFieldsWith typer table fs
    else compareFieldsWith typer table fs

/-- `Migrator.compareModelToTable` over a point-in-time snapshot of the
live table's columns. -/
def compareModelToTable (m : GoModel) (table : List LiveColumn) : List String :=
  compareFieldsWith Migrator.getPostgresType table m.fields

/-- `generateAlterTableSQL` (`model_comparison.go` 56-61, `main.go`
166-171): empty input gives empty output, otherwise one ALTER TABLE
statement with the differences comma-newline-joined. -/
def generateAlterTableSQL (tableName : String) (differences : List String) : String :=
  if differences.isEmpty then ""
  else "ALTER TABLE " ++ tableName ++ "\n" ++ sepJoin differences ",\n" ++ ";"

/-- The clause-collection loop of `generateRollbackAlterTableSQL`:
for each difference with prefix `ADD COLUMN`, emit
`DROP COLUMN <strings.Fields(diff)[2]>`; `none` models the Go panic
when a qualifying difference has fewer than three fields. -/
def rollbackClauses : List String → Option (List String)
  | [] => some []
  | d :: ds =>
    match rollbackClauses ds with
    | none => none
    | some rest =>
      if goStartsWith d "ADD COLUMN" then
        match (goFieldsWords d)[2]? with
        | some w => some (("DROP COLUMN " ++ w) :: rest)
        | none => none
      else some rest

/-- `generateRollbackAlterTableSQL` (`model_comparison.go` 63-76,
`main.go` 173-185): DROP COLUMN clauses for ADD COLUMN differences
only; empty clause list gives the empty string. -/
def Migrator.generateRollbackAlterTableSQL (tableName : String)
    (differences : List String) : Option String :=
  match rollbackClauses differences with
  | none => none
  | some [] => some ""
  | some (s :: rest) =>
    some ("ALTER TABLE " ++ tableName ++ "\n" ++ sepJoin (s :: rest) ",\n" ++ ";")

/-- Per-field contribution to the `columns` slice of
`Migrator.generateCreateTableSQL`: the four implicit `gorm.Model`
columns, or the built column definition. -/
def colContribution (f : GoField) : List String :=
  if isGormModelField f then
    ["id BIGSERIAL PRIMARY KEY",
     "created_at TIMESTAMP NOT NULL DEFAULT CURRENT_TIMESTAMP",
     "updated_at TIMESTAMP NOT NULL DEFAULT CURRENT_TIMESTAMP",
     "deleted_at TIMESTAMP NULL"]
  else [Migrator.buildColumnDefinition f.columnName f.type f.gormTag]

/-- Per-field contribution to the `primaryKeys` slice
(`strings.Contains(gormTag, "primaryKey")`). -/
def pkContribution (f : GoField) : List String :=
  if isGormModelField f then []
  else if goContains f.gormTag "primaryKey" then [f.columnName] else []

/-- Per-field contribution to the `foreignKeys` slice
(append `getForeignKey`'s result when nonempty). -/
def fkContribution (f : GoField) : List String :=
  if isGormModelField f then []
  else
    let fk := Migrator.getForeignKey f.gormTag f.columnName
    if fk = "" then [] else [fk]

/-- Per-field contribution to the `indexes` slice
(`strings.Contains(gormTag, "index")`). -/
def idxContribution (tableName : String) (f : GoField) : List String :=
  if isGormModelField f then []
  else if goContains f.gormTag "index" then
    ["CREATE INDEX idx_" ++ f.columnName ++ " ON " ++ tableName ++
      " (" ++ f.columnName ++ ");"]
  else []

/-- Per-field contribution to the `comments` slice
(append a COMMENT ON COLUMN statement when `getComment` is nonempty). -/
def cmtContribution (tableName : String) (f : GoField) : List String :=
  if isGormModelField f then []
  else
    let comment := Migrator.getComment f.gormTag
    if comment = "" then []
    else ["COMMENT ON COLUMN " ++ tableName ++ "." ++ f.columnName ++
          " IS '" ++ comment ++ "';"]

/-- The five accumulator slices of the `generateCreateTableSQL` loop. -/
structure CreateAcc where
  columns : List String
  primaryKeys : List String
  foreignKeys : List String
  indexes : List String
  comments : List String
  deriving DecidableEq

/-- One iteration of the field loop shared by both
`generateCreateTableSQL` versions: each slice receives its (possibly
empty) contribution for this field, in declaration order. -/
def createStep (tableName : String) (acc : CreateAcc) (f : GoField) : CreateAcc :=
  { columns := acc.columns ++ colContribution f
    primaryKeys := acc.primaryKeys ++ pkContribution f
    foreignKeys := acc.foreignKeys ++ fkContribution f
    indexes := acc.indexes ++ idxContribution tableName f
    comments := acc.comments ++ cmtContribution tableName f }

/-- The accumulated slices after the whole field loop. -/
def createAccOf (m : GoModel) : CreateAcc :=
  m.fields.foldl (createStep m.tableName) ⟨[], [], [], [], []⟩

/-- `Migrator.generateCreateTableSQL` (`sql_helpers.go` 80-148): the
CREATE TABLE block (no emptiness guard on `columns`), then the
foreign-key statements and the comment statements when present; the
collected `indexes` slice is never used. -/
def Migrator.generateCreateTableSQL (m : GoModel) : String :=
  let acc := createAccOf m
  let sql := "CREATE TABLE " ++ m.tableName ++ " (\n" ++ sepJoin acc.columns ",\n"
  let sql :=
    if acc.primaryKeys.isEmpty then sql
    else sql ++ ",\nPRIMARY KEY (" ++ sepJoin acc.primaryKeys ", " ++ ")"
  let sql := sql ++ "\n);"
  let sql :=
    if acc.foreignKeys.isEmpty then sql
    else sql ++ "\n" ++ sepJoin acc.foreignKeys "\n" ++ "\n"
  if acc.comments.isEmpty then sql
  else sql ++ "\n" ++ sepJoin acc.comments "\n" ++ "\n"

/-- Per-field `columns` contribution in `main.go`'s
`generateCreateTableSQL` (lines 217-268), whose column builder may
panic (`none`) on a bare `default` token. -/
def mainColContribution (f : GoField) : Option (List String) :=
  if isGormModelField f then
    some ["id BIGSERIAL PRIMARY KEY",
          "created_at TIMESTAMP NOT NULL DEFAULT CURRENT_TIMESTAMP",
          "updated_at TIMESTAMP NOT NULL DEFAULT CURRENT_TIMESTAMP",
          "deleted_at TIMESTAMP NULL"]
  else (mainBuildColumnDefinition f.columnName f.type f.gormTag).map (fun c => [c])

/-- The `columns` slice accumulated by `main.go`'s create loop. -/
def mainColumnsOf : List GoField → Option (List String)
  | [] => some []
  | f :: fs =>
    match mainColContribution f with
    | none => none
    | some here =>
      match mainColumnsOf fs with
      | none => none
      | some rest => some (here ++ rest)

/-- `main.go` `generateCreateTableSQL` (lines 217-268): appends an
optional PRIMARY KEY line to `columns`, returns `""` when `columns`
is empty, and returns only the CREATE TABLE block — the collected
foreign keys, indexes and comments are never appended. -/
def mainGenerateCreateTableSQL (m : GoModel) : Option String :=
  match mainColumnsOf m.fields with
  | none => none
  | some cols =>
    let pks := m.fields.foldl
      (fun acc f => acc ++ pkContribution f) ([] : List String)
    let columns :=
      if pks.isEmpty then cols
      else cols ++ ["PRIMARY KEY (" ++ sepJoin pks ", " ++ ")"]
    if columns.isEmpty then some ""
    else some ("CREATE TABLE " ++ m.tableName ++ " (\n" ++
               sepJoin columns ",\n" ++ "\n);")

/-- One migration file handed to the emitter: semantic name, SQL
content, direction flag. -/
structure MigrationFile where
  name : String
  content : String
  isUp : Bool
  deriving DecidableEq

/-- `createMigrationFile` (`migrator.go` 123-127 head): empty content
is skipped, nonempty content becomes one file. -/
def createMigrationFileEmit (name content : String) (isUp : Bool) :
    List MigrationFile :=
  if content = "" then [] else [⟨name, content, isUp⟩]

/-- The per-model body of `Migrator.GenerateMigrations`
(`migrator.go` 77-121): on a missing table, emit the create/drop pair
unless the create SQL is empty; on an existing table with differences,
emit the alter/rollback pair unless either SQL text is empty, in which
case the model is skipped entirely (`continue`); `none` models a panic
inside rollback generation. -/
def generateMigrationsForModel (m : GoModel) (tableExists : Bool)
    (table : List LiveColumn) : Option (List MigrationFile) :=
  if tableExists = false then
    let upSQL := Migrator.generateCreateTableSQL m
    let downSQL := "DROP TABLE IF EXISTS " ++ m.tableName ++ ";"
    if upSQL = "" then some []
    else some (createMigrationFileEmit ("create_" ++ m.tableName ++ "_table") upSQL true ++
               createMigrationFileEmit ("drop_" ++ m.tableName ++ "_table") downSQL false)
  else
    let differences := compareModelToTable m table
    if differences.isEmpty then some []
    else
      match Migrator.generateRollbackAlterTableSQL m.tableName differences with
      | none => none
      | some downSQL =>
        let upSQL := generateAlterTableSQL m.tableName differences
        if upSQL = "" || downSQL = "" then some []
        else some (createMigrationFileEmit ("alter_" ++ m.tableName ++ "_table") upSQL true ++
                   createMigrationFileEmit ("rollback_" ++ m.tableName ++ "_table") downSQL false)

/-- The final value of the local `models` parameter inside
`RegisterModels` (`register.go` 11-16): `models = append(models, models...)`
duplicates the slice's contents.  The result is never stored anywhere. -/
def registerModelsLocalFinal (models : List GoModel) : List GoModel :=
  models ++ models

/-- Package-level state observable after `RegisterModels` returns:
`register.go` declares only a mutex at package level — there is no
package-level model list — and the function writes only its local
parameter, so any package-level registry `registered` is unchanged. -/
def registeredAfterRegisterModels (registered : List GoModel)
    (_models : List GoModel) : List GoModel :=
  registered

/-- A Schema Difference as the specification's data model describes it:
a column addition or a column type change. -/
inductive SchemaDiff where
  | addColumn (name ty : String) : SchemaDiff
  | alterColumnType (name ty : String) : SchemaDiff
  deriving DecidableEq

/-- The rendered clause the diff engine emits for one Schema Difference. -/
def renderDiff : SchemaDiff → String
  | .addColumn n t => "ADD COLUMN " ++ n ++ " " ++ t
  | .alterColumnType n t => "ALTER COLUMN " ++ n ++ " TYPE " ++ t

/-- The column name a Schema Difference references. -/
def diffName : SchemaDiff → String
  | .addColumn n _ => n
  | .alterColumnType n _ => n

/-- Whether a Schema Difference is a column addition. -/
def isAddDiff : SchemaDiff → Bool
  | .addColumn _ _ => true
  | .alterColumnType _ _ => false

/-- A column name fit for the rendered-clause round trip: nonempty and
whitespace-free (so `strings.Fields` recovers it). -/
def cleanColName (n : String) : Prop :=
  n.data ≠ [] ∧ ∀ c ∈ n.data, c.isWhitespace = false

instance (n : String) : Decidable (cleanColName n) := by
  unfold cleanColName; infer_instance

/-- Specification-side assembly of the create-table output, following
the amended appendix claim: the CREATE TABLE block over the per-field
column contributions with an optional PRIMARY KEY line, then one
FOREIGN KEY statement per foreign-key-annotated column and one
COMMENT ON COLUMN statement per comment-annotated column — and no
CREATE INDEX statements. -/
def createTableSpec (m : GoModel) : String :=
  let cols := m.fields.flatMap colContribution
  let pks := m.fields.flatMap pkContribution
  let fks := m.fields.flatMap fkContribution
  let cmts := m.fields.flatMap (cmtContribution m.tableName)
  let body := "CREATE TABLE " ++ m.tableName ++ " (\n" ++ sepJoin cols ",\n"
  let body :=
    if pks.isEmpty then body
    else body ++ ",\nPRIMARY KEY (" ++ sepJoin pks ", " ++ ")"
  let body := body ++ "\n);"
  let body :=
    if fks.isEmpty then body
    else body ++ "\n" ++ sepJoin fks "\n" ++ "\n"
  if cmts.isEmpty then body
  else body ++ "\n" ++ sepJoin cmts "\n" ++ "\n"

theorem data_append (s t : String) : (s ++ t).data = s.data ++ t.data := rfl

theorem chStarts_self_append (p r : List Char) : chStarts p (p ++ r) = true := by
  induction p with
  | nil => rfl
  | cons c cs ih => simp [chStarts, ih]

theorem chHas_nil_left (l : List Char) : chHas [] l = true := by
  cases l <;> simp [chHas, chStarts]

theorem chHas_of_parts (a sub b : List Char) : chHas sub (a ++ sub ++ b) = true := by
  induction a with
  | nil =>
    cases sub with
    | nil => simpa using chHas_nil_left b
    | cons s ss =>
      simp only [List.nil_append]
      rw [List.cons_append, chHas]
      have := chStarts_self_append (s :: ss) b
      rw [List.cons_append] at this
      simp [this]
  | cons c a' ih =>
    rw [List.cons_append, List.cons_append, chHas]
    rw [List.append_assoc] at ih ⊢
    simp [ih]

theorem chSplit_no_sep (sep : Char) (l : List Char) (h : ∀ c ∈ l, c ≠ sep) :
    chSplit sep l = [l] := by
  induction l with
  | nil => rfl
  | cons c cs ih =>
    have hc : c ≠ sep := h c (by simp)
    have ih' := ih (fun x hx => h x (by simp [hx]))
    simp [chSplit, hc, ih']

theorem chSplit_append_sep (sep : Char) (a r : List Char) (h : ∀ c ∈ a, c ≠ sep) :
    chSplit sep (a ++ sep :: r) = a :: chSplit sep r := by
  induction a with
  | nil => simp [chSplit]
  | cons c a' ih =>
    have hc : c ≠ sep := h c (by simp)
    have ih' := ih (fun x hx => h x (by simp [hx]))
    simp [chSplit, hc, ih']

theorem chWordsAux_through_word (r : List Char) :
    ∀ (w acc : List Char), (∀ c ∈ w, c.isWhitespace = false) →
      chWordsAux acc (w ++ ' ' :: r) =
        if (acc ++ w).isEmpty then chWordsAux [] r
        else (acc ++ w) :: chWordsAux [] r := by
  intro w
  induction w with
  | nil =>
    intro acc _
    have hsp : (' ' : Char).isWhitespace = true := by decide
    simp [chWordsAux, hsp]
  | cons c w' ih =>
    intro acc hcl
    have hc : c.isWhitespace = false := hcl c (by simp)
    rw [List.cons_append, chWordsAux]
    rw [hc]
    simp only [Bool.false_eq_true, if_false]
    rw [ih (acc ++ [c]) (fun x hx => hcl x (by simp [hx]))]
    simp [List.append_assoc]

theorem mk_data (s : String) : String.mk s.data = s := rfl

theorem addcol_data (n t : String) :
    ("ADD COLUMN " ++ n ++ " " ++ t).data =
      ['A', 'D', 'D'] ++ ' ' ::
        (['C', 'O', 'L', 'U', 'M', 'N'] ++ ' ' :: (n.data ++ ' ' :: t.data)) := by
  rw [data_append, data_append, data_append]
  have h1 : "ADD COLUMN ".data = ['A', 'D', 'D', ' ', 'C', 'O', 'L', 'U', 'M', 'N', ' '] := rfl
  have h2 : " ".data = [' '] := rfl
  rw [h1, h2]
  simp

theorem wordsAt2_addcol (n t : String) (hn : cleanColName n) :
    (goFieldsWords ("ADD COLUMN " ++ n ++ " " ++ t))[2]? = some n := by
  obtain ⟨hne, hcl⟩ := hn
  unfold goFieldsWords chWords
  rw [addcol_data]
  rw [chWordsAux_through_word _ ['A', 'D', 'D'] [] (by decide)]
  rw [chWordsAux_through_word _ ['C', 'O', 'L', 'U', 'M', 'N'] [] (by decide)]
  rw [chWordsAux_through_word _ n.data [] hcl]
  simp [hne]

theorem startAdd_addcol (n t : String) :
    goStartsWith ("ADD COLUMN " ++ n ++ " " ++ t) "ADD COLUMN" = true := by
  unfold goStartsWith
  rw [addcol_data]
  have := chStarts_self_append "ADD COLUMN".data (' ' :: (n.data ++ ' ' :: t.data))
  simpa using this

theorem altercol_data (n t : String) :
    ("ALTER COLUMN " ++ n ++ " TYPE " ++ t).data =
      'A' :: 'L' :: ("TER COLUMN ".data ++ n.data ++ " TYPE ".data ++ t.data) := by
  rw [data_append, data_append, data_append]
  have h1 : "ALTER COLUMN ".data =
      'A' :: 'L' :: "TER COLUMN ".data := rfl
  rw [h1]
  simp

theorem startAdd_altercol (n t : String) :
    goStartsWith ("ALTER COLUMN " ++ n ++ " TYPE " ++ t) "ADD COLUMN" = false := by
  unfold goStartsWith
  rw [altercol_data]
  simp [chStarts]

theorem startDrop_addcol (n t : String) :
    goStartsWith ("ADD COLUMN " ++ n ++ " " ++ t) "DROP COLUMN" = false := by
  unfold goStartsWith
  rw [addcol_data]
  simp [chStarts]

theorem startDrop_altercol (n t : String) :
    goStartsWith ("ALTER COLUMN " ++ n ++ " TYPE " ++ t) "DROP COLUMN" = false := by
  unfold goStartsWith
  rw [altercol_data]
  simp [chStarts]

theorem rollbackClauses_spec (ds : List SchemaDiff)
    (h : ∀ d ∈ ds, cleanColName (diffName d)) :
    rollbackClauses (ds.map renderDiff) =
      some ((ds.filter (fun d => isAddDiff d)).map
        (fun d => "DROP COLUMN " ++ diffName d)) := by
  induction ds with
  | nil => rfl
  | cons d ds ih =>
    have hd := h d (by simp)
    have ih' := ih (fun x hx => h x (by simp [hx]))
    cases d with
    | addColumn n t =>
      rw [List.map_cons, rollbackClauses, ih']
      rw [show renderDiff (.addColumn n t) = "ADD COLUMN " ++ n ++ " " ++ t from rfl]
      rw [startAdd_addcol n t]
      rw [wordsAt2_addcol n t hd]
      simp [List.filter, isAddDiff, diffName]
    | alterColumnType n t =>
      rw [List.map_cons, rollbackClauses, ih']
      rw [show renderDiff (.alterColumnType n t) = "ALTER COLUMN " ++ n ++ " TYPE " ++ t from rfl]
      rw [startAdd_altercol n t]
      simp [List.filter, isAddDiff]

/-- Claim C2: for every difference list rendered from Schema Differences with
well-formed column names, `generateRollbackAlterTableSQL` emits exactly
one `DROP COLUMN <name>` clause per `AddColumn` difference and no clause
for any `AlterColumnType` difference; in particular a batch consisting
only of type-change differences yields the empty string. -/
theorem generateRollback_per_diff (tn : String) (ds : List SchemaDiff)
    (h : ∀ d ∈ ds, cleanColName (diffName d)) :
    Migrator.generateRollbackAlterTableSQL tn (ds.map renderDiff) =
      some (
        if (ds.filter (fun d => isAddDiff d)).isEmpty then ""
        else "ALTER TABLE " ++ tn ++ "\n" ++
          sepJoin ((ds.filter (fun d => isAddDiff d)).map
            (fun d => "DROP COLUMN " ++ diffName d)) ",\n" ++ ";") := by
  unfold Migrator.generateRollbackAlterTableSQL
  rw [rollbackClauses_spec ds h]
  cases hfe : (ds.filter (fun d => isAddDiff d)) with
  | nil => simp
  | cons x xs => simp

/-- Witness for C2 at a concrete batch holding one addition and one
type change: only the addition is reversed. -/
theorem generateRollback_per_diff_witness :
    Migrator.generateRollbackAlterTableSQL "users"
      ([SchemaDiff.addColumn "email" "TEXT",
        SchemaDiff.alterColumnType "age" "BIGINT"].map renderDiff) =
      some "ALTER TABLE users\nDROP COLUMN email;" := by
  rw [generateRollback_per_diff "users"
    [SchemaDiff.addColumn "email" "TEXT", SchemaDiff.alterColumnType "age" "BIGINT"]
    (by decide)]
  decide

theorem compareFields_additive (typer : GoType → String) (table : List LiveColumn) :
    ∀ (fs : List GoField) (d : String), d ∈ compareFieldsWith typer table fs →
      ∃ f, f ∈ fs ∧ isGormModelField f = false ∧
        (d = "ADD COLUMN " ++ f.columnName ++ " " ++ typer f.type ∨
         d = "ALTER COLUMN " ++ f.columnName ++ " TYPE " ++ typer f.type) := by
  intro fs
  induction fs with
  | nil => intro d hd; simp [compareFieldsWith] at hd
  | cons f fs ih =>
    intro d hd
    by_cases hg : isGormModelField f
    · rw [compareFieldsWith, if_pos hg] at hd
      obtain ⟨g, hg1, hg2, hg3⟩ := ih d hd
      exact ⟨g, by simp [hg1], hg2, hg3⟩
    · rw [compareFieldsWith, if_neg hg] at hd
      by_cases hex : columnExistsB table f.columnName = false
      · rw [if_pos hex] at hd
        rcases List.mem_cons.mp hd with heq | hmem
        · exact ⟨f, by simp, by simpa using hg, Or.inl heq⟩
        · obtain ⟨g, hg1, hg2, hg3⟩ := ih d hmem
          exact ⟨g, by simp [hg1], hg2, hg3⟩
      · rw [if_neg hex] at hd
        by_cases hty :
            goEqualFold (columnTypeLookup table f.columnName) (typer f.type) = false
        · rw [if_pos hty] at hd
          rcases List.mem_cons.mp hd with heq | hmem
          · exact ⟨f, by simp, by simpa using hg, Or.inr heq⟩
          · obtain ⟨g, hg1, hg2, hg3⟩ := ih d hmem
            exact ⟨g, by simp [hg1], hg2, hg3⟩
        · rw [if_neg hty] at hd
          obtain ⟨g, hg1, hg2, hg3⟩ := ih d hd
          exact ⟨g, by simp [hg1], hg2, hg3⟩

/-- Claim C1: every difference the diff engine emits (with either type
mapper) is the ADD COLUMN or ALTER COLUMN clause of some model field,
so no difference ever references a live column absent from the model's
specifications, and no emitted difference is a DROP COLUMN. -/
theorem compare_additivity (typer : GoType → String) (m : GoModel)
    (table : List LiveColumn) (d : String)
    (hd : d ∈ compareFieldsWith typer table m.fields) :
    (∃ f, f ∈ m.fields ∧ isGormModelField f = false ∧
      (d = "ADD COLUMN " ++ f.columnName ++ " " ++ typer f.type ∨
       d = "ALTER COLUMN " ++ f.columnName ++ " TYPE " ++ typer f.type)) ∧
    goStartsWith d "DROP COLUMN" = false := by
  obtain ⟨f, hf1, hf2, hf3⟩ := compareFields_additive typer table m.fields d hd
  refine ⟨⟨f, hf1, hf2, hf3⟩, ?_⟩
  rcases hf3 with h | h
  · rw [h]; exact startDrop_addcol _ _
  · rw [h]; exact startDrop_altercol _ _

/-- Witness for C1 at a concrete model and live table: the single
emitted difference is an ADD COLUMN clause of the model's only field
and does not start with DROP COLUMN. -/
theorem compare_additivity_witness :
    (∃ f, f ∈ (GoModel.mk "User" "users" [⟨"Email", "email", GoType.stringK, ""⟩]).fields ∧
      isGormModelField f = false ∧
      ("ADD COLUMN email TEXT" =
        "ADD COLUMN " ++ f.columnName ++ " " ++ Migrator.getPostgresType f.type ∨
       "ADD COLUMN email TEXT" =
        "ALTER COLUMN " ++ f.columnName ++ " TYPE " ++ Migrator.getPostgresType f.type)) ∧
    goStartsWith "ADD COLUMN email TEXT" "DROP COLUMN" = false :=
  compare_additivity Migrator.getPostgresType
    (GoModel.mk "User" "users" [⟨"Email", "email", GoType.stringK, ""⟩])
    [] "ADD COLUMN email TEXT" (by decide)

/-- Claim C3: evaluation of the empty-input paths.  `generateAlterTableSQL`
and `generateRollbackAlterTableSQL` on an empty difference list return
the empty string, and `main.go`'s create path returns the empty string
for a zero-column model — but the `Migrator` create path has no
emptiness guard and returns a malformed `CREATE TABLE` with an empty
column list instead of the empty string. -/
theorem emptyInput_eval :
    generateAlterTableSQL "users" [] = "" ∧
    Migrator.generateRollbackAlterTableSQL "users" [] = some "" ∧
    mainGenerateCreateTableSQL ⟨"Empty", "empties", []⟩ = some "" ∧
    Migrator.generateCreateTableSQL ⟨"Empty", "empties", []⟩ =
      "CREATE TABLE empties (\n\n);" ∧
    Migrator.generateCreateTableSQL ⟨"Empty", "empties", []⟩ ≠ "" := by decide

theorem fk_tag_data (table rest : String) :
    ("foreignKey:" ++ table ++ rest).data =
      ("foreignKey".data ++ ':' :: table.data) ++ rest.data := by
  rw [data_append, data_append]
  have h1 : "foreignKey:".data = "foreignKey".data ++ [':'] := rfl
  rw [h1]
  simp

theorem splitColon_fkpart (table : String) (hcl : ∀ c ∈ table.data, c ≠ ':') :
    goSplitColon (String.mk ("foreignKey".data ++ ':' :: table.data)) =
      ["foreignKey", table] := by
  unfold goSplitColon
  rw [show (String.mk ("foreignKey".data ++ ':' :: table.data)).data =
        "foreignKey".data ++ ':' :: table.data from rfl]
  rw [chSplit_append_sep ':' _ _ (by decide)]
  rw [chSplit_no_sep ':' table.data hcl]
  simp [mk_data]

/-- Claim C4 counterexample: with an explicit `references:order_id` clause
the parse still emits `(id)`, not `(order_id)` — the references clause
is ignored. -/
theorem getForeignKey_counterexample :
    Migrator.getForeignKey "foreignKey:Orders;references:order_id" "order_id" =
      "FOREIGN KEY (order_id) REFERENCES Orders(id)" ∧
    ¬ (Migrator.getForeignKey "foreignKey:Orders;references:order_id" "order_id" =
       "FOREIGN KEY (order_id) REFERENCES Orders(order_id)") := by decide

/-- Claim C4 amended: for every annotation whose first semicolon-separated
part is `foreignKey:<table>`, with or without a following
`references:<col>` clause, the parse yields
`FOREIGN KEY (<column>) REFERENCES <table>(id)` — the referenced column
is always `id`; an explicit references clause is ignored. -/
theorem getForeignKey_always_id (table col rest : String)
    (hcl : ∀ c ∈ table.data, c ≠ ':' ∧ c ≠ ';')
    (hrest : rest = "" ∨ ∃ r : String, rest = ";" ++ r) :
    Migrator.getForeignKey ("foreignKey:" ++ table ++ rest) col =
      "FOREIGN KEY (" ++ col ++ ") REFERENCES " ++ table ++ "(id)" := by
  have hContains : goContains ("foreignKey:" ++ table ++ rest) "foreignKey" = true := by
    unfold goContains
    rw [fk_tag_data]
    have := chHas_of_parts [] "foreignKey".data ((':' :: table.data) ++ rest.data)
    simpa [List.append_assoc] using this
  have hnosemi : ∀ c ∈ "foreignKey".data ++ ':' :: table.data, c ≠ ';' := by
    intro c hc
    rcases List.mem_append.mp hc with h | h
    · exact (show ∀ x ∈ "foreignKey".data, x ≠ ';' by decide) c h
    · rcases List.mem_cons.mp h with h | h
      · rw [h]; decide
      · exact (hcl c h).2
  have hsemi : ∃ tail, goSplitSemi ("foreignKey:" ++ table ++ rest) =
      String.mk ("foreignKey".data ++ ':' :: table.data) :: tail := by
    unfold goSplitSemi
    rw [fk_tag_data]
    rcases hrest with hre | ⟨r, hre⟩
    · refine ⟨[], ?_⟩
      rw [hre]
      rw [show ("" : String).data = [] from rfl, List.append_nil]
      rw [chSplit_no_sep ';' _ hnosemi]
      rfl
    · refine ⟨(chSplit ';' r.data).map String.mk, ?_⟩
      rw [hre]
      rw [show (";" ++ r).data = ';' :: r.data from rfl]
      rw [chSplit_append_sep ';' _ _ hnosemi]
      rfl
  have hstart : goStartsWith (String.mk ("foreignKey".data ++ ':' :: table.data))
      "foreignKey:" = true := by
    unfold goStartsWith
    have := chStarts_self_append "foreignKey:".data table.data
    have h2 : "foreignKey:".data ++ table.data = "foreignKey".data ++ ':' :: table.data := by
      rw [show "foreignKey:".data = "foreignKey".data ++ [':'] from rfl]
      simp
    rw [h2] at this
    exact this
  obtain ⟨tail, htail⟩ := hsemi
  unfold Migrator.getForeignKey
  rw [hContains]
  rw [htail]
  simp only [if_true]
  rw [findFKPart, hstart]
  simp only [if_true]
  rw [splitColon_fkpart table (fun c hc => (hcl c hc).1)]
  rfl

/-- Witness for the amended C4 at the specification's own example. -/
theorem getForeignKey_always_id_witness :
    Migrator.getForeignKey ("foreignKey:" ++ "Orders" ++ ";references:order_id") "order_id" =
      "FOREIGN KEY (" ++ "order_id" ++ ") REFERENCES " ++ "Orders" ++ "(id)" :=
  getForeignKey_always_id "Orders" "order_id" ";references:order_id" (by decide)
    (Or.inr ⟨"references:order_id", rfl⟩)

/-- Claim C5 counterexample: a model whose diff against the live table is a
single type change.  The forward alter SQL is nonempty and the rollback
SQL is empty, yet `GenerateMigrations` emits no file at all — the
forward migration is suppressed together with the down-migration. -/
theorem typeChangeOnly_counterexample :
    compareModelToTable ⟨"User", "users", [⟨"Email", "email", GoType.stringK, ""⟩]⟩
      [⟨"email", "character varying"⟩] = ["ALTER COLUMN email TYPE TEXT"] ∧
    generateAlterTableSQL "users" ["ALTER COLUMN email TYPE TEXT"] =
      "ALTER TABLE users\nALTER COLUMN email TYPE TEXT;" ∧
    Migrator.generateRollbackAlterTableSQL "users" ["ALTER COLUMN email TYPE TEXT"] =
      some "" ∧
    generateMigrationsForModel ⟨"User", "users", [⟨"Email", "email", GoType.stringK, ""⟩]⟩
      true [⟨"email", "character varying"⟩] = some [] := by decide

/-- Claim C5 amended: whenever the diff of a model against an existing table
is nonempty and the generated rollback SQL is empty, the orchestrating
loop skips the model entirely: neither the forward alter-table
migration nor a down-migration is emitted (the empty rollback string is
treated as a generation failure, not as "write the forward file only"). -/
theorem emptyRollback_skips_model (m : GoModel) (table : List LiveColumn)
    (hne : (compareModelToTable m table).isEmpty = false)
    (hrb : Migrator.generateRollbackAlterTableSQL m.tableName
      (compareModelToTable m table) = some "") :
    generateMigrationsForModel m true table = some [] := by
  unfold generateMigrationsForModel
  simp [hne, hrb]

/-- Witness for the amended C5 at the concrete type-change scenario. -/
theorem emptyRollback_skips_model_witness :
    generateMigrationsForModel ⟨"User", "users", [⟨"Email", "email", GoType.stringK, ""⟩]⟩
      true [⟨"email", "character varying"⟩] = some [] :=
  emptyRollback_skips_model ⟨"User", "users", [⟨"Email", "email", GoType.stringK, ""⟩]⟩
    [⟨"email", "character varying"⟩] (by decide) (by decide)

/-- Claim C6 counterexample: `main.go`'s near-duplicate type mapper has no
unsigned-integer case, so unsigned integers map to TEXT rather than
BIGINT, and it maps string to VARCHAR rather than TEXT. -/
theorem mapType_counterexample :
    mainGetPostgresType GoType.uintK = "TEXT" ∧
    mainGetPostgresType GoType.stringK = "VARCHAR" ∧
    ¬ (mainGetPostgresType GoType.uintK = "BIGINT" ∧
       mainGetPostgresType GoType.stringK = "TEXT") := by decide

/-- Claim C6 amended: both type mappers are total and never return the empty
string, and the `Migrator` mapper conforms to the §4.1 table exactly:
signed and unsigned integers to BIGINT, string to TEXT, boolean to
BOOLEAN, floating-point to FLOAT, `time.Time` to TIMESTAMP, and every
unrecognized type to TEXT; `main.go`'s mapper diverges on unsigned
integers and strings (see the counterexample). -/
theorem mapType_total_and_conformant (t : GoType) (name : String) (g : Bool) :
    Migrator.getPostgresType t ≠ "" ∧ mainGetPostgresType t ≠ "" ∧
    Migrator.getPostgresType .intK = "BIGINT" ∧
    Migrator.getPostgresType .uintK = "BIGINT" ∧
    Migrator.getPostgresType .stringK = "TEXT" ∧
    Migrator.getPostgresType .boolK = "BOOLEAN" ∧
    Migrator.getPostgresType .floatK = "FLOAT" ∧
    Migrator.getPostgresType (.structK name true g) = "TIMESTAMP" ∧
    Migrator.getPostgresType (.structK name false g) = "TEXT" ∧
    Migrator.getPostgresType .otherK = "TEXT" := by
  refine ⟨?_, ?_, rfl, rfl, rfl, rfl, rfl, rfl, rfl, rfl⟩
  · cases t with
    | structK n tt gg => cases tt <;> simp [Migrator.getPostgresType]
    | intK => decide
    | uintK => decide
    | stringK => decide
    | boolK => decide
    | floatK => decide
    | otherK => decide
  · cases t with
    | structK n tt gg =>
      by_cases hn : n = "Time" <;> simp [mainGetPostgresType, hn]
    | intK => decide
    | uintK => decide
    | stringK => decide
    | boolK => decide
    | floatK => decide
    | otherK => decide

theorem createFold_spec (tn : String) (fs : List GoField) :
    ∀ acc : CreateAcc, fs.foldl (createStep tn) acc =
      ⟨acc.columns ++ fs.flatMap colContribution,
       acc.primaryKeys ++ fs.flatMap pkContribution,
       acc.foreignKeys ++ fs.flatMap fkContribution,
       acc.indexes ++ fs.flatMap (idxContribution tn),
       acc.comments ++ fs.flatMap (cmtContribution tn)⟩ := by
  induction fs with
  | nil => intro acc; cases acc; simp
  | cons f fs ih =>
    intro acc
    rw [List.foldl_cons, ih]
    simp [createStep, List.append_assoc]

/-- Claim C7 amended: `Migrator.generateCreateTableSQL` equals the
compositional assembly that appends, after the closing `CREATE TABLE`
statement, one FOREIGN KEY statement per foreign-key-annotated column
and one COMMENT ON COLUMN statement per comment-annotated column — and
nothing else: the collected CREATE INDEX statements are never appended
(and `main.go`'s version appends none of the three appendix groups). -/
theorem createTableSQL_spec (m : GoModel) :
    Migrator.generateCreateTableSQL m = createTableSpec m := by
  unfold Migrator.generateCreateTableSQL createTableSpec createAccOf
  rw [createFold_spec]
  simp

/-- Claim C7 counterexample: for a model with one index-annotated column the
index contribution is collected, yet the generated create-table SQL
contains no CREATE INDEX statement. -/
theorem createIndex_counterexample :
    idxContribution "users" ⟨"Email", "email", GoType.stringK, "index"⟩ =
      ["CREATE INDEX idx_email ON users (email);"] ∧
    Migrator.generateCreateTableSQL
      ⟨"User", "users", [⟨"Email", "email", GoType.stringK, "index"⟩]⟩ =
      "CREATE TABLE users (\nemail TEXT\n);" ∧
    goContains (Migrator.generateCreateTableSQL
      ⟨"User", "users", [⟨"Email", "email", GoType.stringK, "index"⟩]⟩)
      "CREATE INDEX" = false := by decide

/-- Claim C8: evaluation at the malformed annotations.  The `Migrator`-path
parsers return a best-effort result on a bare `default` / `comment` /
`foreignKey` token, but the `main.go` parsers index `parts[1]` of a
one-element slice and panic (`none`), and the panic propagates through
`main.go`'s `buildColumnDefinition`. -/
theorem malformedTag_eval :
    mainGetDefault "default" = none ∧
    mainGetComment "comment" = none ∧
    mainGetForeignKey "foreignKey" "user_id" = none ∧
    mainBuildColumnDefinition "age" GoType.intK "default" = none ∧
    Migrator.getDefault "default" = "" ∧
    Migrator.getComment "comment" = "" ∧
    Migrator.getForeignKey "foreignKey" "user_id" = "" ∧
    Migrator.buildColumnDefinition "age" GoType.intK "default" = "age BIGINT" := by decide

/-- Claim C9 counterexample: with a `comment:` token before it, the extracted
default literal is the text between the first and second colons of the
whole annotation — `hi;default` — and not the declared value `5`. -/
theorem getDefault_counterexample :
    Migrator.getDefault "comment:hi;default:5" = "hi;default" ∧
    ¬ (Migrator.getDefault "comment:hi;default:5" = "5") := by decide

theorem default_tag_data (flags v : String) :
    (flags ++ "default:" ++ v).data =
      (flags.data ++ "default".data) ++ ':' :: v.data := by
  rw [data_append, data_append]
  have h1 : "default:".data = "default".data ++ [':'] := rfl
  rw [h1]
  simp

/-- Claim C9 amended: the default literal is extracted verbatim only when no
colon precedes the `default:` token and the value itself contains no
colon: for any colon-free `flags` prefix and colon-free value `v`,
`getDefault (flags ++ "default:" ++ v) = v`; extraction is not
independent of preceding value-bearing tokens (see the counterexample). -/
theorem getDefault_first_colon (flags v : String)
    (hf : ∀ c ∈ flags.data, c ≠ ':') (hv : ∀ c ∈ v.data, c ≠ ':') :
    Migrator.getDefault (flags ++ "default:" ++ v) = v := by
  have hContains : goContains (flags ++ "default:" ++ v) "default:" = true := by
    unfold goContains
    rw [data_append, data_append]
    exact chHas_of_parts flags.data "default:".data v.data
  have hnocolon : ∀ c ∈ flags.data ++ "default".data, c ≠ ':' := by
    intro c hc
    rcases List.mem_append.mp hc with h | h
    · exact hf c h
    · exact (show ∀ x ∈ "default".data, x ≠ ':' by decide) c h
  unfold Migrator.getDefault
  rw [hContains]
  simp only [if_true]
  unfold goSplitColon
  rw [default_tag_data]
  rw [chSplit_append_sep ':' _ _ hnocolon]
  rw [chSplit_no_sep ':' v.data hv]
  simp [mk_data]

/-- Witness for the amended C9: with only colon-free flags before it,
the default value is recovered verbatim. -/
theorem getDefault_first_colon_witness :
    Migrator.getDefault ("not null;" ++ "default:" ++ "7") = "7" :=
  getDefault_first_colon "not null;" "7" (by decide) (by decide)

/-- Claim C10 counterexample: after the call, a registry that was empty is
still empty — it does not reflect the self-append duplication, which
happens only on the discarded local slice. -/
theorem registerModels_counterexample :
    registeredAfterRegisterModels [] [⟨"User", "users", []⟩] = [] ∧
    registeredAfterRegisterModels [] [⟨"User", "users", []⟩] ≠
      [⟨"User", "users", []⟩, ⟨"User", "users", []⟩] ∧
    registerModelsLocalFinal [⟨"User", "users", []⟩] =
      [⟨"User", "users", []⟩, ⟨"User", "users", []⟩] := by decide

/-- Claim C10 amended: `RegisterModels` self-appends the given models onto
its local parameter slice, duplicating that slice's contents, but the
source has no package-level model list (`register.go` declares only a
mutex), the duplicated slice is discarded on return, and no observable
registered state changes. -/
theorem registerModels_no_observable_effect (registered models : List GoModel) :
    registeredAfterRegisterModels registered models = registered ∧
    registerModelsLocalFinal models = models ++ models :=
  ⟨rfl, rfl⟩

end GoMigrator
